import Mathlib

/-
Verification of the rancher-desktop vtunnel subsystem specification and of
selected helpers (snapshot manager, certificate enumeration) against the
repository sources.

The vtunnel core (connection pump, handshake/liveness protocol, host/peer
tunnel servers, supervisor) is described by src/src/go/vtunnel/README.md but
its implementation files are not part of the source tree given here; those
components are modelled from the specification text, as marked on each
definition.  The snapshot manager (src/src/go/rdctl/pkg/snapshot/manager.go)
and the certificate enumeration (src/src/main/mainEvents.ts) are embedded
from their sources.
-/

/- ===================== Connection pump: byte relay ====================== -/

/-- Modelled from the spec: state of one copy task of a Connection Pump
(spec section 4.1; the pump implementation is not under src/).  `src` holds the
bytes the source endpoint will still deliver before end-of-stream, `buf` the
bytes read but not yet written, `dst` the bytes already written to the
destination endpoint. -/
structure CopyState where
  src : List Nat
  buf : List Nat
  dst : List Nat
deriving DecidableEq, Repr

/-- Modelled from the spec: one step of a copy task.  The task either reads
some available bytes from its source into its buffer, or writes its buffer
unmodified to its destination ("reads any available bytes from its source and
writes them unmodified to its destination").  The task stopping early (source
error) is modelled by simply taking no further steps. -/
inductive CopyStep : CopyState → CopyState → Prop
  | read (s : CopyState) (n : Nat) (hn : 0 < n) :
      CopyStep s ⟨s.src.drop n, s.buf ++ s.src.take n, s.dst⟩
  | write (s : CopyState) :
      CopyStep s ⟨s.src, [], s.dst ++ s.buf⟩

/-- Modelled from the spec: a pump runs two concurrent copy tasks, one per
direction; a pump step is a step of either task, interleaved arbitrarily. -/
inductive PumpStep : CopyState × CopyState → CopyState × CopyState → Prop
  | left {s s1 : CopyState} (t : CopyState) (h : CopyStep s s1) :
      PumpStep (s, t) (s1, t)
  | right {t t1 : CopyState} (s : CopyState) (h : CopyStep t t1) :
      PumpStep (s, t) (s, t1)

/-- Modelled from the spec: initial pump state for a connection whose A side
will deliver the byte sequence `aToB` and whose B side will deliver `bToA`. -/
def pumpInit (aToB bToA : List Nat) : CopyState × CopyState :=
  (⟨aToB, [], []⟩, ⟨bToA, [], []⟩)

/-- Modelled from the spec: the pump states reachable from the initial state
by interleaved steps of the two copy tasks. -/
def pumpReach (aToB bToA : List Nat) (p : CopyState × CopyState) : Prop :=
  Relation.ReflTransGen PumpStep (pumpInit aToB bToA) p

/- ===================== Tunnel instance state machine ==================== -/

/-- Modelled from the spec: lifecycle states of a tunnel instance
(spec section 3: Starting, HandshakeWait, Serving, Degraded, Closed). -/
inductive TunnelState
  | Starting
  | HandshakeWait
  | Serving
  | Degraded
  | Closed
deriving DecidableEq, Repr

/-- Modelled from the spec: what the tunnel server does with a newly arriving
client/data connection, depending only on the instance state. -/
inductive AcceptAction
  | relay
  | reject
  | queue
  | notListening
deriving DecidableEq, Repr

/-- Modelled from the spec: admission decision of a tunnel server for a new
connection (spec sections 4.3 and 8): the data listener serves only after the
handshake reports Serving; while Degraded it accepts and immediately rejects
(closes) each new connection rather than queueing it; in every other state no
relayed traffic is admitted. -/
def admitConnection : TunnelState → AcceptAction
  | .Serving => .relay
  | .Degraded => .reject
  | _ => .notListening

/-- Modelled from the spec: one tick of the handshake/liveness prober
(spec section 4.2).  The prober state is the tunnel state together with the
count of consecutive failed probes; `ok` is the outcome of this probe.  A
successful probe moves any probing state to Serving and resets the failure
count; `threshold` consecutive failures move the instance to Degraded, which
keeps being probed (never terminal). -/
def probeStep (threshold : Nat) : TunnelState × Nat → Bool → TunnelState × Nat
  | (.HandshakeWait, _), true => (.Serving, 0)
  | (.HandshakeWait, k), false =>
      if threshold ≤ k + 1 then (.Degraded, k + 1) else (.HandshakeWait, k + 1)
  | (.Serving, _), true => (.Serving, 0)
  | (.Serving, k), false =>
      if threshold ≤ k + 1 then (.Degraded, k + 1) else (.Serving, k + 1)
  | (.Degraded, _), true => (.Serving, 0)
  | (.Degraded, k), false => (.Degraded, k + 1)
  | (s, k), _ => (s, k)

/-- Modelled from the spec: the prober run of a tunnel instance.  Probing
starts in HandshakeWait with no recorded failures; `results n` is the outcome
of the probe taken during interval `n`, and `probeRun threshold results n` is
the prober state after `n` probe intervals. -/
def probeRun (threshold : Nat) (results : Nat → Bool) : Nat → TunnelState × Nat
  | 0 => (.HandshakeWait, 0)
  | n + 1 => probeStep threshold (probeRun threshold results n) (results n)

/- ===================== Connection pump: termination ===================== -/

/-- Modelled from the spec: lifecycle flags of one running pump
(spec section 4.1, Termination).  `t1done`/`t2done` record whether the two
copy tasks have exited, `wAclosed`/`wBclosed` whether the pump has closed the
write sides of the two endpoints (for a transport without half-close this
stands for fully closing the endpoint), and `completed` whether the pump as a
whole has returned to its caller. -/
structure PumpLife where
  t1done : Bool
  t2done : Bool
  wAclosed : Bool
  wBclosed : Bool
  completed : Bool
deriving DecidableEq, Repr

/-- Modelled from the spec: initial lifecycle state of a freshly started
pump: both tasks running, both endpoints open, pump not completed. -/
def pumpLifeInit : PumpLife :=
  ⟨false, false, false, false, false⟩

/-- Modelled from the spec: the mandatory reaction of the pump once some copy
task has ended (spec section 4.1, Termination): first close both endpoints
write sides, then the still-running task observes end-of-stream and exits,
then — and only then — the pump completes.  Each application performs the
next outstanding reaction; with no task ended it does nothing. -/
def settle (s : PumpLife) : PumpLife :=
  if s.t1done || s.t2done then
    if !(s.wAclosed && s.wBclosed) then
      { s with wAclosed := true, wBclosed := true }
    else if !(s.t1done && s.t2done) then
      { s with t1done := true, t2done := true }
    else if !s.completed then
      { s with completed := true }
    else s
  else s

/-- Modelled from the spec: an event in the life of a pump: either one of the
copy tasks ends on its own (end-of-stream or I/O error on its source), or the
pump performs its next mandated reaction step. -/
inductive PumpEvt : PumpLife → PumpLife → Prop
  | task1Ends (s : PumpLife) : PumpEvt s { s with t1done := true }
  | task2Ends (s : PumpLife) : PumpEvt s { s with t2done := true }
  | react (s : PumpLife) : PumpEvt s (settle s)

/-- Modelled from the spec: the pump lifecycle states reachable from a fresh
pump. -/
def pumpLifeReach (s : PumpLife) : Prop :=
  Relation.ReflTransGen PumpEvt pumpLifeInit s

/-- Predicate: the pump is fully terminated — both endpoints closed, both
tasks exited, pump completed. -/
def pumpTerminated (s : PumpLife) : Prop :=
  s.wAclosed = true ∧ s.wBclosed = true ∧ s.t1done = true ∧ s.t2done = true ∧
    s.completed = true

/-- Invariant: the pump has completed only if both of its copy tasks have
exited. -/
def pumpInv (s : PumpLife) : Prop :=
  s.completed = true → s.t1done = true ∧ s.t2done = true

/- ===================== Host tunnel server ====================== -/

/-- Modelled from the spec: one tunnel configuration entry (spec section 3),
matching the config.yaml shape in src/src/go/vtunnel/README.md. -/
structure TunnelConfig where
  handshakePort : Nat
  vsockHostPort : Nat
  peerAddress : String
  peerPort : Nat
  upstreamServerAddress : String
deriving DecidableEq, Repr

/-- Modelled from the spec: the bounded connect timeout, in seconds, used for
upstream dials (spec section 5: an implementation-chosen bound of a few
seconds). -/
def dialTimeoutSeconds : Nat := 10

/-- Modelled from the spec: a dial request issued by a tunnel server: the
target address and the connect timeout bound applied to the attempt. -/
structure DialRequest where
  address : String
  timeoutSeconds : Nat
deriving DecidableEq, Repr

/-- Modelled from the spec: the dial request the Host tunnel server issues
for an accepted connection: it dials the configured upstream server address
with the bounded connect timeout (spec section 4.3). -/
def hostDialRequest (cfg : TunnelConfig) : DialRequest :=
  ⟨cfg.upstreamServerAddress, dialTimeoutSeconds⟩

/-- Modelled from the spec: what the Host tunnel server does with one
accepted connection (connections are identified by plain numbers here). -/
inductive HostAction
  | pump (inbound outbound : Nat)
  | closeInbound (inbound : Nat)
deriving DecidableEq, Repr

/-- Modelled from the spec: the mutable state of one host tunnel server
instance that an accepted connection could possibly touch: the instance state
field and the set of live relayed connections. -/
structure ServerState where
  tstate : TunnelState
  live : List Nat
deriving DecidableEq, Repr

/-- Modelled from the spec: handling of a single accepted connection by the
Host tunnel server (spec section 4.3): dial the upstream address with the
bounded connect timeout; on success hand exactly the accepted/dialed pair to
a Connection Pump (recording the connection as live); on dial failure close
the accepted connection and leave the server state untouched. -/
def handleAccepted (cfg : TunnelConfig) (st : ServerState) (inbound : Nat)
    (dialer : DialRequest → Option Nat) : HostAction × ServerState :=
  match dialer (hostDialRequest cfg) with
  | some outbound => (.pump inbound outbound, { st with live := inbound :: st.live })
  | none => (.closeInbound inbound, st)

/-- Modelled from the spec: the accept loop of the Host tunnel server over a
finite schedule of arrivals; each list entry is an accepted connection paired
with the outcome its upstream dial will have.  Every arrival is handled
(dial failures do not stop the loop). -/
def acceptLoop (cfg : TunnelConfig) (st : ServerState) :
    List (Nat × Option Nat) → ServerState × List HostAction
  | [] => (st, [])
  | (inbound, dres) :: rest =>
      let first := handleAccepted cfg st inbound (fun _ => dres)
      let tail := acceptLoop cfg first.2 rest
      (tail.1, first.1 :: tail.2)

/- ===================== Tunnel supervisor ====================== -/

/-- Modelled from the spec: whether a port number is usable at all. -/
def portValid (p : Nat) : Bool := 0 < p && p < 65536

/-- Modelled from the spec: configuration validity of one tunnel entry:
every port it names is a usable port number.  A duplicate `vsockHostPort`
manifests as a listener bind failure of the later instance (port already in
use), which is modelled by the bind outcome, not here. -/
def validConfig (c : TunnelConfig) : Bool :=
  portValid c.vsockHostPort && portValid c.handshakePort && portValid c.peerPort

/-- Modelled from the spec: outcome of starting one tunnel instance. -/
inductive StartResult
  | failed
  | running
deriving DecidableEq, Repr

/-- Modelled from the spec: the supervisor starts one instance for one
configuration entry (spec section 4.5): an invalid configuration or a
listener bind failure fails that instance (bind failures are not retried);
otherwise the instance is running (its prober then drives it toward
Serving). -/
def startInstance (c : TunnelConfig) (bindOk : Bool) : StartResult :=
  if validConfig c = false then .failed
  else if bindOk = false then .failed
  else .running

/-- Modelled from the spec: the supervisor starting instances for the
configuration entries from position `i` on; `bindOk k` is the outcome of the
listener bind of entry `k`.  Each entry is started independently of every
other entry. -/
def superviseFrom (bindOk : Nat → Bool) : Nat → List TunnelConfig → List StartResult
  | _, [] => []
  | i, c :: rest => startInstance c (bindOk i) :: superviseFrom bindOk (i + 1) rest

/-- Modelled from the spec: the supervisor starting one tunnel instance per
configuration entry (spec section 4.5). -/
def supervise (cfgs : List TunnelConfig) (bindOk : Nat → Bool) : List StartResult :=
  superviseFrom bindOk 0 cfgs

/- ===================== Snapshot manager ====================== -/

/-- Character class of the snapshot name regexp in
src/src/go/rdctl/pkg/snapshot/manager.go line 16: digits, ASCII letters,
underscore and hyphen. -/
def isNameChar (c : Char) : Bool :=
  (Char.ofNat 48 ≤ c && c ≤ Char.ofNat 57) ||
  (Char.ofNat 97 ≤ c && c ≤ Char.ofNat 122) ||
  (Char.ofNat 65 ≤ c && c ≤ Char.ofNat 90) ||
  c = Char.ofNat 95 || c = Char.ofNat 45

/-- Embeds nameRegexp.MatchString from manager.go: the anchored regexp
matches exactly the strings of at most 100 characters all drawn from the
class above. -/
def nameRegexpMatches (s : String) : Bool :=
  s.length ≤ 100 && s.data.all isNameChar

/-- A snapshot record as far as Manager.Create observes it: its name and its
generated id (the creation time plays no role in the verified claims). -/
structure Snapshot where
  name : String
  id : String
deriving DecidableEq, Repr

/-- Errors Manager.Create can return: a failure of List, the two name
validation errors (wrapping ErrNameExists and ErrInvalidName), and a failure
of Snapshotter.CreateFiles. -/
inductive CreateErr
  | listFailed
  | nameExists
  | invalidName
  | createFilesFailed
deriving DecidableEq, Repr

/-- Embeds Manager.Create (manager.go lines 65-100).  `listOk` stands for
whether manager.List() succeeds, `snapshots` for the snapshots it returns,
`filesOk` for whether Snapshotter.CreateFiles succeeds, and `newId` for the
freshly generated uuid.  The result pairs the returned value with the
snapshot set after the call.  The checks run in source order: the duplicate
name check over the listed snapshots first, the regexp check second. -/
def Manager.Create (listOk : Bool) (snapshots : List Snapshot) (filesOk : Bool)
    (name newId : String) : Except CreateErr Snapshot × List Snapshot :=
  if listOk = false then (.error .listFailed, snapshots)
  else if snapshots.any (fun s => s.name == name) then (.error .nameExists, snapshots)
  else if nameRegexpMatches name = false then (.error .invalidName, snapshots)
  else if filesOk = false then (.error .createFilesFailed, snapshots)
  else (.ok ⟨name, newId⟩, snapshots ++ [⟨name, newId⟩])

/-- State of the snapshots directory as far as Manager.Delete observes it:
whether os.ReadDir succeeds, the names of its entries, and the set of
directory names for which os.RemoveAll would fail. -/
structure SnapDirState where
  readDirOk : Bool
  entries : List String
  removeFails : List String
deriving DecidableEq, Repr

/-- Errors Manager.Delete can return: a failure of os.ReadDir, the missing
snapshot error, and a failure of os.RemoveAll. -/
inductive DeleteErr
  | readDirFailed
  | notFound
  | removeFailed
deriving DecidableEq, Repr

/-- Embeds Manager.Delete (manager.go lines 126-146): read the snapshots
directory (an error fails the call), search its entries for one named `id`
(absence fails the call with nothing removed), then remove exactly that one
directory with os.RemoveAll (whose own failure also fails the call).  The
result pairs the returned value with the directory entries after the call. -/
def Manager.Delete (fs : SnapDirState) (id : String) :
    Except DeleteErr Unit × List String :=
  if fs.readDirOk = false then (.error .readDirFailed, fs.entries)
  else if fs.entries.contains id = false then (.error .notFound, fs.entries)
  else if fs.removeFails.contains id then (.error .removeFailed, fs.entries)
  else (.ok (), fs.entries.erase id)

/-- Helper: whether an Except value is an error. -/
def isErr {ε α : Type} : Except ε α → Bool
  | .error _ => true
  | .ok _ => false

/- ===================== System certificates ====================== -/

/-- A certificate as the Windows branch of getSystemCertificates observes
it: the store it came from, its notAfter instant (milliseconds since epoch,
as Date valueOf), and its PEM text. -/
structure WinCert where
  store : String
  notAfter : Int
  pem : String
deriving DecidableEq, Repr

/-- Models the external win-ca enumeration used by mainEvents.ts: given the
requested store names, it yields exactly the certificates of the machine
population that live in one of those stores, in order. -/
def getWinCertificates (stores : List String) (population : List WinCert) :
    List WinCert :=
  population.filter (fun c => stores.contains c.store)

/-- Embeds the Windows branch of getSystemCertificates
(src/src/main/mainEvents.ts lines 181-186): iterate the certificates of the
CA and ROOT stores and yield the PEM of each whose notAfter is strictly
later than the current time `now`. -/
def getSystemCertificates (now : Int) (population : List WinCert) : List String :=
  (getWinCertificates ["CA", "ROOT"] population).filterMap
    (fun cert => if now < cert.notAfter then some cert.pem else none)

/- ===================== Theorems ====================== -/

/-- Helper: a copy-task step never changes the concatenation of written,
buffered and still-to-come bytes. -/
theorem copyStep_content {s s1 : CopyState} (h : CopyStep s s1) :
    s1.dst ++ s1.buf ++ s1.src = s.dst ++ s.buf ++ s.src := by
  cases h with
  | read n hn =>
      simp only [List.append_assoc, List.take_append_drop]
  | write =>
      simp

/-- Helper: a pump step preserves the byte content of both directions. -/
theorem pumpStep_content {p q : CopyState × CopyState} (h : PumpStep p q) :
    q.1.dst ++ q.1.buf ++ q.1.src = p.1.dst ++ p.1.buf ++ p.1.src ∧
    q.2.dst ++ q.2.buf ++ q.2.src = p.2.dst ++ p.2.buf ++ p.2.src := by
  cases h with
  | left t h => exact ⟨copyStep_content h, rfl⟩
  | right s h => exact ⟨rfl, copyStep_content h⟩

/-- Helper: in every pump state reachable from the initial one, written plus
buffered plus still-to-come bytes equal the source sequence, per direction. -/
theorem pumpReach_content (aToB bToA : List Nat) (p : CopyState × CopyState)
    (h : Relation.ReflTransGen PumpStep (pumpInit aToB bToA) p) :
    p.1.dst ++ p.1.buf ++ p.1.src = aToB ∧
    p.2.dst ++ p.2.buf ++ p.2.src = bToA := by
  induction h with
  | refl => simp [pumpInit]
  | tail h1 hstep ih =>
      have hc := pumpStep_content hstep
      exact ⟨hc.1.trans ih.1, hc.2.trans ih.2⟩

/-- C1: for every connection paired by a pump, the bytes written on one
endpoint are delivered to the other endpoint unmodified and in order, in both
directions: in every reachable pump state the bytes written so far, the
buffered bytes and the bytes still to come concatenate to exactly the source
byte sequence of that direction, and once a direction has drained its source
(end-of-stream) and flushed its buffer, its destination has received exactly
the source sequence. -/
theorem pump_transparent_relay (aToB bToA : List Nat) (p : CopyState × CopyState)
    (h : pumpReach aToB bToA p) :
    (p.1.dst ++ p.1.buf ++ p.1.src = aToB ∧ p.2.dst ++ p.2.buf ++ p.2.src = bToA) ∧
    (p.1.src = [] → p.1.buf = [] → p.1.dst = aToB) ∧
    (p.2.src = [] → p.2.buf = [] → p.2.dst = bToA) := by
  have hcontent : p.1.dst ++ p.1.buf ++ p.1.src = aToB ∧
      p.2.dst ++ p.2.buf ++ p.2.src = bToA := pumpReach_content aToB bToA p h
  refine ⟨hcontent, ?_, ?_⟩
  · intro h1 h2
    have := hcontent.1
    rw [h1, h2] at this
    simpa using this
  · intro h1 h2
    have := hcontent.2
    rw [h1, h2] at this
    simpa using this

/-- Witness for C1: a concrete run relaying bytes 1,2 from A to B and byte 3
from B to A delivers exactly those bytes. -/
theorem pump_transparent_relay_witness :
    (⟨[], [], [1, 2]⟩ : CopyState).dst = [1, 2] ∧
    (⟨[], [], [3]⟩ : CopyState).dst = [3] := by
  have h1 : PumpStep (pumpInit [1, 2] [3]) (⟨[], [1, 2], []⟩, ⟨[3], [], []⟩) :=
    PumpStep.left _ (CopyStep.read ⟨[1, 2], [], []⟩ 2 (by decide))
  have h2 : PumpStep ((⟨[], [1, 2], []⟩ : CopyState), (⟨[3], [], []⟩ : CopyState))
      (⟨[], [], [1, 2]⟩, ⟨[3], [], []⟩) :=
    PumpStep.left _ (CopyStep.write ⟨[], [1, 2], []⟩)
  have h3 : PumpStep ((⟨[], [], [1, 2]⟩ : CopyState), (⟨[3], [], []⟩ : CopyState))
      (⟨[], [], [1, 2]⟩, ⟨[], [3], []⟩) :=
    PumpStep.right _ (CopyStep.read ⟨[3], [], []⟩ 1 (by decide))
  have h4 : PumpStep ((⟨[], [], [1, 2]⟩ : CopyState), (⟨[], [3], []⟩ : CopyState))
      (⟨[], [], [1, 2]⟩, ⟨[], [], [3]⟩) :=
    PumpStep.right _ (CopyStep.write ⟨[], [3], []⟩)
  have hreach : pumpReach [1, 2] [3] (⟨[], [], [1, 2]⟩, ⟨[], [], [3]⟩) :=
    Relation.ReflTransGen.tail
      (Relation.ReflTransGen.tail
        (Relation.ReflTransGen.tail (Relation.ReflTransGen.single h1) h2) h3) h4
  have h := pump_transparent_relay [1, 2] [3] _ hreach
  exact ⟨h.2.1 rfl rfl, h.2.2 rfl rfl⟩

/-- C2: no relayed traffic is admitted in Starting or HandshakeWait, every
connection accepted while Degraded is immediately rejected rather than queued
or relayed, and relaying happens exactly in the Serving state. -/
theorem admitConnection_gates (s : TunnelState) :
    (admitConnection s = .relay ↔ s = .Serving) ∧
    (s = .Starting ∨ s = .HandshakeWait → admitConnection s = .notListening) ∧
    (s = .Degraded → admitConnection s = .reject) ∧
    admitConnection s ≠ .queue := by
  cases s <;> decide

/-- Witness for C2: the gate at the concrete states Starting and Degraded. -/
theorem admitConnection_gates_witness :
    admitConnection .Starting = .notListening ∧ admitConnection .Degraded = .reject :=
  ⟨(admitConnection_gates .Starting).2.1 (Or.inl rfl),
   (admitConnection_gates .Degraded).2.2.1 rfl⟩

/-- Helper: a probe tick keeps the prober among the three probing states. -/
theorem probeStep_probing (threshold : Nat) (st : TunnelState × Nat) (b : Bool)
    (h : st.1 = .HandshakeWait ∨ st.1 = .Serving ∨ st.1 = .Degraded) :
    (probeStep threshold st b).1 = .HandshakeWait ∨
    (probeStep threshold st b).1 = .Serving ∨
    (probeStep threshold st b).1 = .Degraded := by
  obtain ⟨s, k⟩ := st
  rcases h with h | h | h <;> subst h <;> cases b <;>
    simp only [probeStep] <;> first
      | (split <;> simp)
      | simp

/-- Helper: every state the prober run reaches is a probing state. -/
theorem probeRun_probing (threshold : Nat) (results : Nat → Bool) (n : Nat) :
    (probeRun threshold results n).1 = .HandshakeWait ∨
    (probeRun threshold results n).1 = .Serving ∨
    (probeRun threshold results n).1 = .Degraded := by
  induction n with
  | zero => left; rfl
  | succ n ih => exact probeStep_probing threshold _ (results n) ih

/-- Helper: a successful probe puts any probing state into Serving. -/
theorem probeStep_ok (threshold : Nat) (st : TunnelState × Nat)
    (h : st.1 = .HandshakeWait ∨ st.1 = .Serving ∨ st.1 = .Degraded) :
    (probeStep threshold st true).1 = .Serving := by
  obtain ⟨s, k⟩ := st
  rcases h with h | h | h <;> subst h <;> rfl

/-- Helper: one successful probe puts the run into Serving at the next
interval, no matter what preceded it. -/
theorem probeRun_next_serving (threshold : Nat) (results : Nat → Bool) (n : Nat)
    (h : results n = true) :
    (probeRun threshold results (n + 1)).1 = .Serving := by
  rw [probeRun, h]
  exact probeStep_ok threshold _ (probeRun_probing threshold results n)

/-- Helper: with every probe up to interval m failed, the run sits in
HandshakeWait with m recorded failures while m is below the threshold, and in
Degraded from the threshold on. -/
theorem probeRun_all_fail (threshold : Nat) (results : Nat → Bool)
    (ht : 0 < threshold) (m : Nat) (hall : ∀ i, i < m → results i = false) :
    probeRun threshold results m =
      if threshold ≤ m then (.Degraded, m) else (.HandshakeWait, m) := by
  induction m with
  | zero =>
      rw [if_neg (by omega)]
      rfl
  | succ m ih =>
      have hr : results m = false := hall m (by omega)
      have hm := ih (fun i hi => hall i (by omega))
      rw [probeRun, hm, hr]
      by_cases hc : threshold ≤ m
      · rw [if_pos hc, if_pos (by omega)]
        simp only [probeStep]
      · rw [if_neg hc]
        by_cases hc2 : threshold ≤ m + 1
        · rw [if_pos hc2]
          simp only [probeStep]
          rw [if_pos hc2]
        · rw [if_neg hc2]
          simp only [probeStep]
          rw [if_neg hc2]

/-- C6: repeated probe failure (threshold consecutive failures) moves the
instance to Degraded; Degraded is never terminal — the run never reaches
Closed and keeps probing; and one successful probe, after any number of
failures, puts the instance into Serving within one additional probe
interval. -/
theorem probe_recovery (threshold : Nat) (results : Nat → Bool) (n m : Nat) :
    (probeRun threshold results n).1 ≠ .Closed ∧
    (results n = true → (probeRun threshold results (n + 1)).1 = .Serving) ∧
    (0 < threshold → threshold ≤ m → (∀ i, i < m → results i = false) →
      (probeRun threshold results m).1 = .Degraded) := by
  refine ⟨?_, ?_, ?_⟩
  · rcases probeRun_probing threshold results n with h | h | h <;> rw [h] <;> decide
  · exact probeRun_next_serving threshold results n
  · intro h1 h2 h3
    rw [probeRun_all_fail threshold results h1 m h3, if_pos h2]

/-- Witness for C6: with threshold 1 and a probe that fails at interval 0 and
succeeds from interval 1 on, the run is Degraded after one interval and
Serving one interval after the first success. -/
theorem probe_recovery_witness :
    (probeRun 1 (fun i => decide (1 ≤ i)) 1).1 = .Degraded ∧
    (probeRun 1 (fun i => decide (1 ≤ i)) 2).1 = .Serving :=
  ⟨(probe_recovery 1 (fun i => decide (1 ≤ i)) 1 1).2.2 (by decide) (by decide)
      (by decide),
   (probe_recovery 1 (fun i => decide (1 ≤ i)) 1 1).2.1 (by decide)⟩

/-- Helper: the pump reaction step preserves the completion invariant. -/
theorem settle_pumpInv (s : PumpLife) (h : pumpInv s) : pumpInv (settle s) := by
  unfold pumpInv at *
  unfold settle
  repeat' split
  all_goals simp_all

/-- Helper: every pump lifecycle event preserves the completion invariant. -/
theorem pumpEvt_pumpInv {s s1 : PumpLife} (e : PumpEvt s s1) (h : pumpInv s) :
    pumpInv s1 := by
  cases e with
  | task1Ends => exact fun hc => ⟨rfl, (h hc).2⟩
  | task2Ends => exact fun hc => ⟨(h hc).1, rfl⟩
  | react => exact settle_pumpInv s h

/-- Helper: the completion invariant holds in every reachable pump state. -/
theorem pumpLifeReach_pumpInv (s : PumpLife)
    (h : Relation.ReflTransGen PumpEvt pumpLifeInit s) : pumpInv s := by
  induction h with
  | refl => exact fun hc => absurd hc (by decide)
  | tail h1 e ih => exact pumpEvt_pumpInv e ih

/-- Helper: once some task has ended, three reaction steps fully terminate
the pump: both endpoints closed, both tasks exited, pump completed. -/
theorem settle_three (s : PumpLife) (h : s.t1done = true ∨ s.t2done = true) :
    pumpTerminated (settle (settle (settle s))) := by
  obtain ⟨a, b, c, d, e⟩ := s
  unfold pumpTerminated
  revert h
  cases a <;> cases b <;> cases c <;> cases d <;> cases e <;> decide

/-- C3: when either copy task of a pump ends for any reason, the mandated
reactions close both endpoints, make the other task observe end-of-stream and
exit, and terminate the whole pump within a bounded number (three) of
reaction steps; and in every reachable pump lifecycle state the pump has
completed only after both tasks have exited. -/
theorem pump_bounded_termination :
    (∀ s : PumpLife, pumpLifeReach s → s.completed = true →
      s.t1done = true ∧ s.t2done = true) ∧
    (∀ s : PumpLife, s.t1done = true ∨ s.t2done = true →
      pumpTerminated (settle (settle (settle s)))) := by
  constructor
  · intro s hreach
    exact pumpLifeReach_pumpInv s hreach
  · intro s h
    exact settle_three s h

/-- Witness for C3: a concrete pump run in which task 1 ends and the three
reaction steps terminate everything, and a reachable completed state in which
both tasks have indeed exited. -/
theorem pump_bounded_termination_witness :
    ((⟨true, true, true, true, true⟩ : PumpLife).t1done = true ∧
      (⟨true, true, true, true, true⟩ : PumpLife).t2done = true) ∧
    pumpTerminated (settle (settle (settle ⟨true, false, false, false, false⟩))) := by
  constructor
  · have h1 : PumpEvt pumpLifeInit ⟨true, false, false, false, false⟩ :=
      PumpEvt.task1Ends pumpLifeInit
    have h2 : PumpEvt ⟨true, false, false, false, false⟩
        ⟨true, false, true, true, false⟩ :=
      PumpEvt.react ⟨true, false, false, false, false⟩
    have h3 : PumpEvt ⟨true, false, true, true, false⟩
        ⟨true, true, true, true, false⟩ :=
      PumpEvt.react ⟨true, false, true, true, false⟩
    have h4 : PumpEvt ⟨true, true, true, true, false⟩
        ⟨true, true, true, true, true⟩ :=
      PumpEvt.react ⟨true, true, true, true, false⟩
    exact pump_bounded_termination.1 ⟨true, true, true, true, true⟩
      (Relation.ReflTransGen.tail
        (Relation.ReflTransGen.tail
          (Relation.ReflTransGen.tail (Relation.ReflTransGen.single h1) h2) h3) h4)
      rfl
  · exact pump_bounded_termination.2 ⟨true, false, false, false, false⟩ (Or.inl rfl)

/-- C4: for every accepted transport connection, the Host tunnel server
dials exactly the configured upstream server address with the bounded
connect timeout, and on dial success it hands exactly that pair of endpoints
— the accepted connection and the freshly dialed upstream connection — to a
Connection Pump. -/
theorem host_pumps_dialed_pair (cfg : TunnelConfig) (st : ServerState)
    (inbound : Nat) (dialer : DialRequest → Option Nat) (outbound : Nat) :
    (hostDialRequest cfg).address = cfg.upstreamServerAddress ∧
    (hostDialRequest cfg).timeoutSeconds = dialTimeoutSeconds ∧
    0 < dialTimeoutSeconds ∧
    (dialer (hostDialRequest cfg) = some outbound →
      (handleAccepted cfg st inbound dialer).1 = .pump inbound outbound) := by
  refine ⟨rfl, rfl, by decide, ?_⟩
  intro h
  simp [handleAccepted, h]

/-- Witness for C4: with the README example configuration and a dial that
returns connection 7, accepted connection 5 is pumped with 7. -/
theorem host_pumps_dialed_pair_witness :
    (handleAccepted ⟨9090, 8989, "127.0.0.1", 3030, "127.0.0.1:4444"⟩
        ⟨.Serving, []⟩ 5 (fun _ => some 7)).1 = .pump 5 7 :=
  (host_pumps_dialed_pair ⟨9090, 8989, "127.0.0.1", 3030, "127.0.0.1:4444"⟩
      ⟨.Serving, []⟩ 5 (fun _ => some 7) 7).2.2.2 rfl

/-- C7: when the upstream dial for an accepted connection fails, the Host
tunnel server closes exactly that accepted connection and leaves its whole
observable state — the instance state field and the set of live connections —
unchanged, and the accept loop goes on handling the remaining arrivals
exactly as it would have without the failed one. -/
theorem host_dial_failure_frame (cfg : TunnelConfig) (st : ServerState)
    (inbound : Nat) (dialer : DialRequest → Option Nat)
    (rest : List (Nat × Option Nat)) :
    (dialer (hostDialRequest cfg) = none →
      handleAccepted cfg st inbound dialer = (.closeInbound inbound, st)) ∧
    (acceptLoop cfg st ((inbound, none) :: rest) =
      ((acceptLoop cfg st rest).1, .closeInbound inbound :: (acceptLoop cfg st rest).2)) := by
  constructor
  · intro h
    simp [handleAccepted, h]
  · simp [acceptLoop, handleAccepted]

/-- Witness for C7: a failing dial for accepted connection 5 closes it and
leaves the server state with live connection 1 untouched. -/
theorem host_dial_failure_frame_witness :
    handleAccepted ⟨9090, 8989, "127.0.0.1", 3030, "127.0.0.1:4444"⟩
        ⟨.Serving, [1]⟩ 5 (fun _ => none) = (.closeInbound 5, ⟨.Serving, [1]⟩) :=
  (host_dial_failure_frame ⟨9090, 8989, "127.0.0.1", 3030, "127.0.0.1:4444"⟩
      ⟨.Serving, [1]⟩ 5 (fun _ => none) []).1 rfl

/-- Helper: position j of a supervisor run started at offset k holds the
start result of configuration j with bind outcome k plus j. -/
theorem superviseFrom_getElem (bindOk : Nat → Bool) (cfgs : List TunnelConfig) :
    ∀ (k j : Nat),
      (superviseFrom bindOk k cfgs)[j]? =
        (cfgs[j]?).map (fun c => startInstance c (bindOk (k + j))) := by
  induction cfgs with
  | nil => intro k j; simp [superviseFrom]
  | cons c rest ih =>
      intro k j
      cases j with
      | zero => simp [superviseFrom]
      | succ j =>
          simp only [superviseFrom, List.getElem?_cons_succ, ih (k + 1) j]
          rw [show k + 1 + j = k + (j + 1) by omega]

/-- C5: the supervisor starts each configured tunnel instance independently:
an entry with an invalid configuration or a failing listener bind yields a
failed instance, every other entry with a valid configuration and a
successful bind starts regardless of the failing sibling, and a started
instance reaches Serving one probe interval after its first successful
probe. -/
theorem supervisor_isolates_failures (cfgs : List TunnelConfig)
    (bindOk : Nat → Bool) (i j : Nat) (ci cj : TunnelConfig)
    (threshold : Nat) (results : Nat → Bool) (n : Nat) :
    (cfgs[j]? = some cj → validConfig cj = true → bindOk j = true →
      (supervise cfgs bindOk)[j]? = some .running) ∧
    (cfgs[i]? = some ci → (validConfig ci = false ∨ bindOk i = false) →
      (supervise cfgs bindOk)[i]? = some .failed) ∧
    (results n = true → (probeRun threshold results (n + 1)).1 = .Serving) := by
  refine ⟨?_, ?_, probeRun_next_serving threshold results n⟩
  · intro h1 h2 h3
    unfold supervise
    rw [superviseFrom_getElem bindOk cfgs 0 j, h1]
    simp [startInstance, h2, h3]
  · intro h1 h2
    unfold supervise
    rw [superviseFrom_getElem bindOk cfgs 0 i, h1]
    rcases h2 with h2 | h2 <;> simp [startInstance, h2]

/-- Witness for C5: of two configurations where the second has invalid
ports, the first starts and the second fails, and a started instance whose
probe at interval 0 succeeds is Serving at interval 1. -/
theorem supervisor_isolates_failures_witness :
    (supervise [⟨9090, 8989, "127.0.0.1", 3030, "127.0.0.1:4444"⟩,
        ⟨0, 0, "127.0.0.1", 0, "127.0.0.1:4444"⟩] (fun _ => true))[0]? =
      some .running ∧
    (supervise [⟨9090, 8989, "127.0.0.1", 3030, "127.0.0.1:4444"⟩,
        ⟨0, 0, "127.0.0.1", 0, "127.0.0.1:4444"⟩] (fun _ => true))[1]? =
      some .failed ∧
    (probeRun 2 (fun _ => true) 1).1 = .Serving := by
  refine ⟨?_, ?_, ?_⟩
  · exact (supervisor_isolates_failures
      [⟨9090, 8989, "127.0.0.1", 3030, "127.0.0.1:4444"⟩,
        ⟨0, 0, "127.0.0.1", 0, "127.0.0.1:4444"⟩] (fun _ => true) 1 0
      ⟨0, 0, "127.0.0.1", 0, "127.0.0.1:4444"⟩
      ⟨9090, 8989, "127.0.0.1", 3030, "127.0.0.1:4444"⟩ 2 (fun _ => true) 0).1
      rfl (by decide) rfl
  · exact (supervisor_isolates_failures
      [⟨9090, 8989, "127.0.0.1", 3030, "127.0.0.1:4444"⟩,
        ⟨0, 0, "127.0.0.1", 0, "127.0.0.1:4444"⟩] (fun _ => true) 1 0
      ⟨0, 0, "127.0.0.1", 0, "127.0.0.1:4444"⟩
      ⟨9090, 8989, "127.0.0.1", 3030, "127.0.0.1:4444"⟩ 2 (fun _ => true) 0).2.1
      rfl (Or.inl (by decide))
  · exact (supervisor_isolates_failures
      [⟨9090, 8989, "127.0.0.1", 3030, "127.0.0.1:4444"⟩,
        ⟨0, 0, "127.0.0.1", 0, "127.0.0.1:4444"⟩] (fun _ => true) 1 0
      ⟨0, 0, "127.0.0.1", 0, "127.0.0.1:4444"⟩
      ⟨9090, 8989, "127.0.0.1", 3030, "127.0.0.1:4444"⟩ 2 (fun _ => true) 0).2.2
      rfl

/-- C8: with a successful snapshot listing, Manager.Create rejects a name
equal to an existing snapshot's name with ErrNameExists and rejects a name
failing the name regexp with ErrInvalidName, creating no snapshot in either
case; the duplicate check runs before the regexp check, so a duplicate name
that is also invalid reports ErrNameExists. -/
theorem Manager.Create_name_checks (snapshots : List Snapshot) (filesOk : Bool)
    (name newId : String) :
    (snapshots.any (fun s => s.name == name) = true →
      Manager.Create true snapshots filesOk name newId =
        (.error .nameExists, snapshots)) ∧
    (snapshots.any (fun s => s.name == name) = false →
      nameRegexpMatches name = false →
      Manager.Create true snapshots filesOk name newId =
        (.error .invalidName, snapshots)) := by
  constructor
  · intro h
    simp [Manager.Create, h]
  · intro h1 h2
    simp [Manager.Create, h1, h2]

/-- Witness for C8: a name that both duplicates an existing snapshot and
violates the regexp is reported as ErrNameExists, with the snapshot set
unchanged. -/
theorem Manager.Create_name_checks_witness :
    Manager.Create true [⟨"a!", "id0"⟩] true "a!" "id1" =
      (.error .nameExists, [⟨"a!", "id0"⟩]) :=
  (Manager.Create_name_checks [⟨"a!", "id0"⟩] true "a!" "id1").1 (by decide)

/-- C10 counterexample: Manager.Delete can also fail when os.RemoveAll
fails, so "returns an error if and only if the snapshots directory cannot be
read or contains no entry named id" is false: with a readable directory that
contains the entry but whose removal fails, Delete returns an error. -/
theorem Manager.Delete_error_iff_cex :
    isErr (Manager.Delete ⟨true, ["a"], ["a"]⟩ "a").1 = true ∧
    ¬(isErr (Manager.Delete ⟨true, ["a"], ["a"]⟩ "a").1 = true ↔
        ((true : Bool) = false ∨ (["a"] : List String).contains "a" = false)) := by
  decide

/-- C10 (amended): Manager.Delete returns an error exactly when the
snapshots directory cannot be read, contains no entry named id, or the
removal of the snapshot directory itself fails; in the not-found case it
removes nothing; and on success it removes exactly the directory named id. -/
theorem Manager.Delete_spec (fs : SnapDirState) (id : String) :
    (isErr (Manager.Delete fs id).1 = true ↔
      (fs.readDirOk = false ∨ fs.entries.contains id = false ∨
        fs.removeFails.contains id = true)) ∧
    (fs.readDirOk = true → fs.entries.contains id = false →
      (Manager.Delete fs id).1 = .error .notFound ∧
        (Manager.Delete fs id).2 = fs.entries) ∧
    (isErr (Manager.Delete fs id).1 = false →
      (Manager.Delete fs id).2 = fs.entries.erase id) := by
  unfold Manager.Delete
  by_cases h1 : fs.readDirOk = false
  · simp [h1, isErr]
  · by_cases h2 : id ∈ fs.entries
    · by_cases h3 : id ∈ fs.removeFails
      · simp [h1, h2, h3, isErr]
      · simp [h1, h2, h3, isErr]
    · simp [h1, h2, isErr]

/-- Witness for C10: deleting an absent id removes nothing and deleting a
present id (with removal succeeding) removes exactly that entry. -/
theorem Manager.Delete_spec_witness :
    (Manager.Delete ⟨true, ["a", "b"], []⟩ "c").2 = ["a", "b"] ∧
    (Manager.Delete ⟨true, ["a", "b"], []⟩ "a").2 = ["a", "b"].erase "a" :=
  ⟨((Manager.Delete_spec ⟨true, ["a", "b"], []⟩ "c").2.1 rfl (by decide)).2,
   (Manager.Delete_spec ⟨true, ["a", "b"], []⟩ "a").2.2 (by decide)⟩

/-- C9: on Windows, getSystemCertificates yields exactly the PEMs of the
certificates of the CA and ROOT stores whose notAfter instant is strictly
later than the current time; every certificate already expired at the time of
the call is omitted. -/
theorem getSystemCertificates_windows (now : Int) (population : List WinCert) :
    getSystemCertificates now population =
      (population.filter
        (fun c => (c.store == "CA" || c.store == "ROOT") &&
          decide (now < c.notAfter))).map (fun c => c.pem) := by
  unfold getSystemCertificates getWinCertificates
  induction population with
  | nil => rfl
  | cons c rest ih =>
      by_cases hca : c.store = "CA" <;> by_cases hro : c.store = "ROOT" <;>
        by_cases hn : now < c.notAfter <;>
        simp [List.filter_cons, List.filterMap_cons, hca, hro, hn] <;>
        simpa using ih
